import Mathlib

/-!
# CheckUpSite backend: shallow embedding and verification

This file embeds the core of `backend/server.js` of the CheckUpSite
repository (a website-uptime monitor) in Lean 4 and proves properties of
the embedded functions.

Embedding conventions:
* Timestamps (`Date.now()`, `new Date().toISOString()`) are `Nat` values
  passed explicitly; each probe-and-update step carries one wall-clock
  instant.
* The outcome of the network call performed by `axios.get` is an explicit
  input (`ProbeOutcome`): either a response with a status code, or a
  thrown error carrying an optional `code` string and a `message` string.
* The promise returned by each per-target task in a monitoring cycle may
  also reject; this is the `TaskOutcome.rejected` input, exercising the
  `.catch` handler of `performAutomaticMonitoring` / the rejection of
  `Promise.all` in the `/api/check` route.
* JavaScript `null`/absent fields become `Option.none`; `errorType`
  stays a `String`, with exactly the strings the source assigns.
* The mutable global `monitoringState` object becomes an association
  list from site name to `SiteState`, threaded explicitly; object keys
  are unique because entries are only inserted when absent.
* The `uptime` percentage string of the `/api/check` summary
  (floating-point `toFixed` formatting) is elided; no claim depends on it.
-/

/-- Site status string: `checkSite` and the cycle catch handler only ever
produce the strings `'UP'` and `'DOWN'`. -/
inductive Status where
  | UP
  | DOWN
deriving DecidableEq, Repr

/-- A configured target from `sites.json`: `{name, url}`. -/
structure Site where
  name : String
  url : String
deriving DecidableEq, Repr

/-- The error object thrown by the HTTP client: an optional `code`
(e.g. `'ECONNABORTED'`) and a `message` string. -/
structure HttpError where
  code : Option String
  message : String
deriving DecidableEq, Repr

/-- Outcome of the network call inside `checkSite`: either a response
(with its status code and elapsed milliseconds) or a thrown error. -/
inductive ProbeOutcome where
  | response (statusCode : Int) (elapsed : Nat)
  | failure (err : HttpError) (elapsed : Nat)
deriving DecidableEq, Repr

/-- The object returned by `checkSite` (server.js lines 225-231 and
259-266). The success branch has no `errorType` field (`none` here). -/
structure CheckResult where
  status : Status
  statusCode : Option Int
  responseTime : Option Nat
  checkedAt : Nat
  error : Option String
  errorType : Option String
deriving DecidableEq, Repr

/-- Per-site entry of the global `monitoringState` object
(server.js lines 60-69). -/
structure SiteState where
  name : String
  url : String
  lastStatus : Option Status
  lastCheckedAt : Option Nat
  lastChangedAt : Option Nat
  changeCount : Nat
  lastStatusCode : Option Int
  lastError : Option String
deriving DecidableEq, Repr

/-- The monitoring state: association list keyed by site name. -/
abbrev MonState := List (String × SiteState)

/-- The change object returned by `updateMonitoringState` when a state
change is detected (server.js lines 124-131). -/
structure ChangeEvent where
  siteChanged : Bool
  siteName : String
  previousStatus : Status
  newStatus : Status
  changedAt : Nat
  changeCount : Nat
deriving DecidableEq, Repr

/-- The argument object passed to `sendTelegramAlert`
(server.js lines 113-122); the alert itself is an external effect, so the
embedding records the payload of the call. -/
structure AlertPayload where
  siteName : String
  url : String
  newStatus : Status
  previousStatus : Status
  statusCode : Option Int
  responseTime : Option Nat
  error : Option String
  checkedAt : Nat
deriving DecidableEq, Repr

/-- Property lookup `monitoringState[siteName]`. -/
def lookupState (m : MonState) (n : String) : Option SiteState :=
  match m with
  | [] => none
  | (k, v) :: t => if k = n then some v else lookupState t n

/-- In-place mutation of the entry for `n` (the JS code mutates the
object found by the lookup; keys are unique in `m`). -/
def setState (m : MonState) (n : String) (st : SiteState) : MonState :=
  match m with
  | [] => []
  | (k, v) :: t => if k = n then (k, st) :: t else (k, v) :: setState t n st

/-- The fresh entry `initializeMonitoringState` creates for a site not yet
present (server.js lines 60-69). -/
def freshState (name url : String) : SiteState :=
  { name := name, url := url, lastStatus := none, lastCheckedAt := none,
    lastChangedAt := none, changeCount := 0, lastStatusCode := none,
    lastError := none }

/-- `initializeMonitoringState` (server.js lines 56-73): for each loaded
site, create a state entry only when none exists (`!monitoringState[site.name]`;
an entry object is always truthy, so the test is presence). -/
def initializeMonitoringState (sites : List Site) (m : MonState) : MonState :=
  sites.foldl
    (fun acc site =>
      if (lookupState acc site.name).isNone then
        acc ++ [(site.name, freshState site.name site.url)]
      else acc)
    m

/-- `updateMonitoringState(siteName, checkResult)` (server.js lines
89-135). Returns the new state together with the optional change object
and the optional Telegram alert payload. `now` is the wall clock read by
`new Date()` at line 105. -/
def updateMonitoringState (m : MonState) (siteName : String)
    (checkResult : CheckResult) (now : Nat) :
    MonState × Option ChangeEvent × Option AlertPayload :=
  match lookupState m siteName with
  | none => (m, none, none)
  | some currentState =>
    let newStatus := checkResult.status
    let updated : SiteState :=
      { currentState with
        lastStatus := some newStatus,
        lastCheckedAt := some checkResult.checkedAt,
        lastStatusCode := checkResult.statusCode,
        lastError := checkResult.error }
    match currentState.lastStatus with
    | some p =>
      if p = newStatus then
        (setState m siteName updated, none, none)
      else
        let changed : SiteState :=
          { updated with
            changeCount := updated.changeCount + 1,
            lastChangedAt := some now }
        (setState m siteName changed,
         some { siteChanged := true, siteName := siteName,
                previousStatus := p, newStatus := newStatus,
                changedAt := now, changeCount := changed.changeCount },
         some { siteName := siteName, url := currentState.url,
                newStatus := newStatus, previousStatus := p,
                statusCode := checkResult.statusCode,
                responseTime := checkResult.responseTime,
                error := checkResult.error,
                checkedAt := checkResult.checkedAt })
    | none => (setState m siteName updated, none, none)

/-- `pat` occurs as a contiguous substring (JS `String.includes`). -/
def subOf (pat : List Char) : List Char → Bool
  | [] => List.isPrefixOf pat []
  | c :: rest => List.isPrefixOf pat (c :: rest) || subOf pat rest

/-- `s.includes(pat)` on strings. -/
def strIncludes (s pat : String) : Bool := subOf pat.toList s.toList

/-- `checkSite(url, timeout)` (server.js lines 203-268), as a function of
the outcome of the single `axios.get` call. `now` is the wall clock at
resolution time (`new Date().toISOString()`), `elapsed` is
`Date.now() - startTime`. -/
def checkSite (o : ProbeOutcome) (now : Nat) : CheckResult :=
  match o with
  | .response statusCode elapsed =>
    { status := if 200 ≤ statusCode ∧ statusCode < 400 then .UP else .DOWN,
      statusCode := some statusCode,
      responseTime := some elapsed,
      checkedAt := now,
      error := none,
      errorType := none }
  | .failure e elapsed =>
    let classified : String × String :=
      if e.code = some "ECONNABORTED" then
        ("Request timeout (5 seconds)", "Timeout")
      else if e.code = some "ENOTFOUND" then
        ("Domain not found", "DNS Error")
      else if e.code = some "ECONNREFUSED" then
        ("Connection refused", "Connection Error")
      else if e.code = some "ERR_TLS_CERT_ALTNAME_INVALID" ∨
              e.code = some "CERT_HAS_EXPIRED" ∨
              strIncludes e.message "certificate" then
        ("SSL certificate issue (but connection was made)", "SSL Warning")
      else if strIncludes e.message "getaddrinfo" then
        ("Network error", "Network Error")
      else if e.message ≠ "" then
        (e.message, "Unknown")
      else
        ("Unknown error", "Unknown")
    { status := .DOWN,
      statusCode := none,
      responseTime := some elapsed,
      checkedAt := now,
      error := some classified.1,
      errorType := some classified.2 }

/-- What happens to one target's promise in a monitoring cycle: either the
probe ran to a `ProbeOutcome`, or the task rejected with an error whose
message is recorded by the `.catch` handler. -/
inductive TaskOutcome where
  | ran (o : ProbeOutcome)
  | rejected (message : String)
deriving DecidableEq, Repr

/-- One entry of a cycle's result list: `{name, url, ...result}` from the
`.then` branch, or the literal object built by the `.catch` branch
(server.js lines 290-304); the latter has no `statusCode`, `responseTime`
or `errorType` fields. -/
structure SiteResult where
  name : String
  url : String
  status : Status
  statusCode : Option Int
  responseTime : Option Nat
  checkedAt : Nat
  error : Option String
  errorType : Option String
deriving DecidableEq, Repr

/-- Build the `{name, url, ...result}` object of the `.then` branch. -/
def mkSiteResult (s : Site) (r : CheckResult) : SiteResult :=
  { name := s.name, url := s.url, status := r.status,
    statusCode := r.statusCode, responseTime := r.responseTime,
    checkedAt := r.checkedAt, error := r.error, errorType := r.errorType }

/-- The result recorded for one target: the `.then` branch on a completed
probe, the `.catch` branch (`status: 'DOWN'`, error message, no other
fields) on a rejected task. `time` is the wall clock at resolution. -/
def runTarget (s : Site) (t : TaskOutcome) (time : Nat) : SiteResult :=
  match t with
  | .ran o => mkSiteResult s (checkSite o time)
  | .rejected msg =>
    { name := s.name, url := s.url, status := .DOWN, statusCode := none,
      responseTime := none, checkedAt := time, error := some msg,
      errorType := none }

/-- Sequential linearization of the per-target promise continuations of
`performAutomaticMonitoring` (server.js lines 282-306): each completed
probe is fed to `updateMonitoringState`, change objects are collected; a
rejected task is caught and does not touch the state. -/
def runCycle (m : MonState) :
    List (Site × TaskOutcome × Nat) →
    MonState × List SiteResult × List ChangeEvent × List AlertPayload
  | [] => (m, [], [], [])
  | (s, t, time) :: rest =>
    match t with
    | .ran o =>
      let r := checkSite o time
      let step := updateMonitoringState m s.name r time
      let tail := runCycle step.1 rest
      (tail.1, runTarget s (.ran o) time :: tail.2.1,
       step.2.1.toList ++ tail.2.2.1, step.2.2.toList ++ tail.2.2.2)
    | .rejected msg =>
      let tail := runCycle m rest
      (tail.1, runTarget s (.rejected msg) time :: tail.2.1,
       tail.2.2.1, tail.2.2.2)

/-- `results.filter(r => r.status === st).length`. -/
def countStatus (st : Status) (rs : List SiteResult) : Nat :=
  (rs.filter (fun r => r.status = st)).length

/-- The report object returned by `performAutomaticMonitoring`
(server.js lines 325-335), summary inlined. -/
structure CycleReport where
  timestamp : Nat
  monitoringCycle : Bool
  results : List SiteResult
  stateChanges : List ChangeEvent
  total : Nat
  up : Nat
  down : Nat
deriving DecidableEq, Repr

/-- `performAutomaticMonitoring()` (server.js lines 275-336) over the
given per-target task outcomes: runs the cycle, updates the state, and
builds the report with `total = results.length`,
`up = results.filter(UP).length`, `down = results.filter(DOWN).length`.
Also returns the Telegram alert payloads dispatched during the cycle. -/
def performAutomaticMonitoring (m : MonState)
    (tasks : List (Site × TaskOutcome × Nat)) (endTime : Nat) :
    MonState × CycleReport × List AlertPayload :=
  let c := runCycle m tasks
  (c.1,
   { timestamp := endTime, monitoringCycle := true, results := c.2.1,
     stateChanges := c.2.2.1, total := c.2.1.length,
     up := countStatus .UP c.2.1, down := countStatus .DOWN c.2.1 },
   c.2.2.2)

/-- The response of `GET /api/check` (server.js lines 342-388): 400 when
no sites are configured, 500 when the joined promise rejects, otherwise
the fresh results with summary counts. -/
inductive ApiCheckResponse where
  | badRequest (message : String)
  | ok (timestamp : Nat) (total up down : Nat) (sites : List SiteResult)
  | serverError (message error : String)
deriving DecidableEq, Repr

/-- `Promise.all` over the per-target promises of `/api/check`
(no `.catch` per target there): the first rejection, in linearization
order, rejects the whole join; otherwise the list of results. -/
def collectResults :
    List (Site × TaskOutcome × Nat) → Except String (List SiteResult)
  | [] => .ok []
  | (s, t, time) :: rest =>
    match t with
    | .ran o =>
      match collectResults rest with
      | .ok rs => .ok (mkSiteResult s (checkSite o time) :: rs)
      | .error msg => .error msg
    | .rejected msg => .error msg

/-- The `GET /api/check` handler (server.js lines 342-388), as a function
of the per-target task outcomes. It never reads or writes
`monitoringState` and never calls `updateMonitoringState`. -/
def apiCheck (tasks : List (Site × TaskOutcome × Nat)) (now : Nat) :
    ApiCheckResponse :=
  if tasks.isEmpty then
    .badRequest "No sites configured in sites.json"
  else
    match collectResults tasks with
    | .error msg => .serverError "Error checking sites" msg
    | .ok results =>
      .ok now results.length (countStatus .UP results)
        (countStatus .DOWN results) results

/-- `true` when the response is the 200 success shape. -/
def ApiCheckResponse.isOk : ApiCheckResponse → Bool
  | .ok _ _ _ _ _ => true
  | _ => false

/-- Events the running server reacts to with respect to the monitoring
core: a scheduled (or startup) cycle, or a manual `/api/check` request. -/
inductive ServerEvent where
  | scheduledCycle (tasks : List (Site × TaskOutcome × Nat)) (endTime : Nat)
  | manualCheck (tasks : List (Site × TaskOutcome × Nat)) (now : Nat)
deriving DecidableEq, Repr

/-- What the server emits for one event. -/
inductive ServerOutput where
  | cycleDone (report : CycleReport) (alerts : List AlertPayload)
  | apiResponse (r : ApiCheckResponse)
deriving DecidableEq, Repr

/-- One step of the server: the scheduled path runs
`performAutomaticMonitoring` against the shared state; the `/api/check`
handler runs its own probe collection and leaves the state untouched
(its code never mentions `monitoringState`). -/
def serverStep (m : MonState) (e : ServerEvent) : MonState × ServerOutput :=
  match e with
  | .scheduledCycle tasks endTime =>
    let r := performAutomaticMonitoring m tasks endTime
    (r.1, .cycleDone r.2.1 r.2.2)
  | .manualCheck tasks now =>
    (m, .apiResponse (apiCheck tasks now))

/-- Change events carried by a server output: only a cycle report carries
any (the only producer is `updateMonitoringState`). -/
def outputChangeEvents : ServerOutput → List ChangeEvent
  | .cycleDone report _ => report.stateChanges
  | .apiResponse _ => []

/-- Sequential application of a list of probe results (with their times)
to one site's state, as successive `updateMonitoringState` calls. -/
def applyResults (m : MonState) (name : String) :
    List (CheckResult × Nat) → MonState
  | [] => m
  | (r, t) :: rest => applyResults (updateMonitoringState m name r t).1 name rest

/-! ## Helper lemmas -/

theorem lookup_setState_self (m : MonState) (n : String) (st : SiteState)
    (h : (lookupState m n).isSome) :
    lookupState (setState m n st) n = some st := by
  induction m with
  | nil => simp [lookupState] at h
  | cons hd t ih =>
    obtain ⟨k, v⟩ := hd
    by_cases hk : k = n
    · simp [setState, lookupState, hk]
    · simp [setState, lookupState, hk] at h ⊢
      exact ih h

theorem lookupState_append (a b : MonState) (n : String) :
    lookupState (a ++ b) n =
      match lookupState a n with
      | some v => some v
      | none => lookupState b n := by
  induction a with
  | nil => simp [lookupState]
  | cons hd t ih =>
    obtain ⟨k, v⟩ := hd
    by_cases hk : k = n
    · simp [lookupState, hk]
    · simp [lookupState, hk, ih]

theorem init_cons (s : Site) (rest : List Site) (m : MonState) :
    initializeMonitoringState (s :: rest) m =
      initializeMonitoringState rest
        (if (lookupState m s.name).isNone then
          m ++ [(s.name, freshState s.name s.url)]
        else m) := rfl

theorem init_preserves (sites : List Site) (m : MonState) (n : String)
    (st : SiteState) (h : lookupState m n = some st) :
    lookupState (initializeMonitoringState sites m) n = some st := by
  induction sites generalizing m with
  | nil => simpa [initializeMonitoringState] using h
  | cons s rest ih =>
    rw [init_cons]
    by_cases hs : (lookupState m s.name).isNone
    · rw [if_pos hs]
      exact ih _ (by rw [lookupState_append, h])
    · rw [if_neg hs]
      exact ih _ h

theorem init_covers (sites : List Site) (m : MonState) (s : Site)
    (hmem : s ∈ sites) :
    (lookupState (initializeMonitoringState sites m) s.name).isSome := by
  induction sites generalizing m with
  | nil => cases hmem
  | cons hd rest ih =>
    rw [init_cons]
    rcases List.mem_cons.mp hmem with heq | htail
    · subst heq
      by_cases hs : (lookupState m s.name).isNone
      · rw [if_pos hs]
        have h0 : lookupState m s.name = none := Option.isNone_iff_eq_none.mp hs
        have hlk : lookupState (m ++ [(s.name, freshState s.name s.url)]) s.name =
            some (freshState s.name s.url) := by
          rw [lookupState_append, h0]
          simp [lookupState]
        rw [init_preserves rest _ _ _ hlk]
        rfl
      · rw [if_neg hs]
        have hsome : (lookupState m s.name).isSome := by
          cases hcase : lookupState m s.name with
          | none => exact absurd (by simp [hcase]) hs
          | some v => rfl
        obtain ⟨v, hv⟩ := Option.isSome_iff_exists.mp hsome
        rw [init_preserves rest _ _ _ hv]
        rfl
    · by_cases hs : (lookupState m hd.name).isNone
      · rw [if_pos hs]
        exact ih _ htail
      · rw [if_neg hs]
        exact ih _ htail

theorem init_noop (sites : List Site) (m : MonState)
    (h : ∀ s ∈ sites, (lookupState m s.name).isSome) :
    initializeMonitoringState sites m = m := by
  induction sites with
  | nil => rfl
  | cons hd rest ih =>
    rw [init_cons]
    have hhd : (lookupState m hd.name).isSome := h hd (List.mem_cons_self hd rest)
    have hnn : ¬ (lookupState m hd.name).isNone := by
      cases hcase : lookupState m hd.name with
      | none => simp [hcase] at hhd
      | some v => simp
    rw [if_neg hnn]
    exact ih (fun s hs => h s (List.mem_cons_of_mem hd hs))

theorem init_cases (sites : List Site) (m : MonState) (n : String) :
    lookupState (initializeMonitoringState sites m) n = lookupState m n ∨
    ∃ st, lookupState (initializeMonitoringState sites m) n = some st ∧
      st.lastStatus = none ∧ st.changeCount = 0 := by
  induction sites generalizing m with
  | nil => left; rfl
  | cons hd rest ih =>
    rw [init_cons]
    by_cases hs : (lookupState m hd.name).isNone
    · rw [if_pos hs]
      have hstep : lookupState (m ++ [(hd.name, freshState hd.name hd.url)]) n =
          lookupState m n ∨
          ∃ st, lookupState (m ++ [(hd.name, freshState hd.name hd.url)]) n = some st ∧
            st.lastStatus = none ∧ st.changeCount = 0 := by
        rw [lookupState_append]
        cases hm : lookupState m n with
        | some v => left; rfl
        | none =>
          by_cases hk : hd.name = n
          · right
            refine ⟨freshState hd.name hd.url, ?_, rfl, rfl⟩
            simp [lookupState, hk]
          · left
            simp [lookupState, hk]
      rcases ih (m ++ [(hd.name, freshState hd.name hd.url)]) with h1 | h1
      · rw [h1]
        exact hstep
      · right
        exact h1
    · rw [if_neg hs]
      exact ih m

theorem runCycle_results (m : MonState) (tasks : List (Site × TaskOutcome × Nat)) :
    (runCycle m tasks).2.1 = tasks.map (fun x => runTarget x.1 x.2.1 x.2.2) := by
  induction tasks generalizing m with
  | nil => rfl
  | cons hd rest ih =>
    obtain ⟨s, t, time⟩ := hd
    cases t with
    | ran o => simp [runCycle, ih]
    | rejected msg => simp [runCycle, ih]

theorem countStatus_up_down (rs : List SiteResult) :
    countStatus .UP rs + countStatus .DOWN rs = rs.length := by
  induction rs with
  | nil => rfl
  | cons r rest ih =>
    unfold countStatus at ih ⊢
    rw [List.filter_cons, List.filter_cons]
    cases hr : r.status with
    | UP =>
      rw [if_pos (by decide), if_neg (by decide)]
      simp only [List.length_cons]
      omega
    | DOWN =>
      rw [if_neg (by decide), if_pos (by decide)]
      simp only [List.length_cons]
      omega

/-- All tasks of a cycle ran to a probe outcome (none rejected). -/
def allRan (tasks : List (Site × TaskOutcome × Nat)) : Bool :=
  tasks.all (fun x => match x.2.1 with | .ran _ => true | .rejected _ => false)

theorem collectResults_ok (tasks : List (Site × TaskOutcome × Nat))
    (h : allRan tasks = true) :
    collectResults tasks =
      .ok (tasks.map (fun x => runTarget x.1 x.2.1 x.2.2)) := by
  induction tasks with
  | nil => rfl
  | cons hd rest ih =>
    obtain ⟨s, t, time⟩ := hd
    cases t with
    | ran o =>
      have hrest : allRan rest = true := by
        simpa [allRan] using h
      simp [collectResults, ih hrest, runTarget]
    | rejected msg =>
      exfalso
      simp [allRan] at h

theorem checkSite_failure_fields (e : HttpError) (elapsed now : Nat) :
    (checkSite (.failure e elapsed) now).status = .DOWN ∧
    (checkSite (.failure e elapsed) now).statusCode = none ∧
    (checkSite (.failure e elapsed) now).responseTime = some elapsed ∧
    ∃ k, (checkSite (.failure e elapsed) now).errorType = some k ∧
      k ∈ (["Timeout", "DNS Error", "Connection Error", "SSL Warning",
            "Network Error", "Unknown"] : List String) := by
  refine ⟨rfl, rfl, rfl, ?_⟩
  simp only [checkSite]
  split_ifs <;> simp

/-! ## Claim theorems -/

/-- Claim C1: for every integer HTTP status code received in a response,
`checkSite` classifies the site UP iff `200 ≤ c < 400`; a received code
outside that range yields DOWN with the code recorded and no error
(server.js line 223). -/
theorem checkSite_classify_range (c : Int) (elapsed now : Nat) :
    ((checkSite (.response c elapsed) now).status = .UP ↔ (200 ≤ c ∧ c < 400)) ∧
    ((checkSite (.response c elapsed) now).status = .DOWN ↔ ¬(200 ≤ c ∧ c < 400)) ∧
    (checkSite (.response c elapsed) now).statusCode = some c ∧
    (checkSite (.response c elapsed) now).error = none ∧
    (checkSite (.response c elapsed) now).errorType = none := by
  by_cases h : 200 ≤ c ∧ c < 400 <;> simp [checkSite, h]

/-- Witness for C1 at the concrete received code 301 (a redirect: UP). -/
theorem checkSite_classify_range_witness :
    ((checkSite (.response 301 7) 9).status = .UP ↔
      (200 ≤ (301 : Int) ∧ (301 : Int) < 400)) ∧
    ((checkSite (.response 301 7) 9).status = .DOWN ↔
      ¬(200 ≤ (301 : Int) ∧ (301 : Int) < 400)) ∧
    (checkSite (.response 301 7) 9).statusCode = some 301 ∧
    (checkSite (.response 301 7) 9).error = none ∧
    (checkSite (.response 301 7) 9).errorType = none :=
  checkSite_classify_range 301 7 9

/-- Claim C6: every probe that receives no response yields status DOWN,
no status code, a populated response time, and an `errorType` among the
six taxonomy strings of server.js lines 234-256.  The spec names
`Timeout`, `DnsError`, `ConnectionRefused`, `TlsError`, `NetworkError`,
`Unknown` denote the source strings `'Timeout'`, `'DNS Error'`,
`'Connection Error'`, `'SSL Warning'`, `'Network Error'`, `'Unknown'`
respectively. -/
theorem probe_no_response_shape (e : HttpError) (elapsed now : Nat) :
    (checkSite (.failure e elapsed) now).status = .DOWN ∧
    (checkSite (.failure e elapsed) now).statusCode = none ∧
    (checkSite (.failure e elapsed) now).responseTime = some elapsed ∧
    ∃ k, (checkSite (.failure e elapsed) now).errorType = some k ∧
      k ∈ (["Timeout", "DNS Error", "Connection Error", "SSL Warning",
            "Network Error", "Unknown"] : List String) :=
  checkSite_failure_fields e elapsed now

/-- Witness for C6 at a concrete DNS failure. -/
theorem probe_no_response_shape_witness :
    (checkSite (.failure ⟨some "ENOTFOUND", "name not known"⟩ 12) 3).status = .DOWN ∧
    (checkSite (.failure ⟨some "ENOTFOUND", "name not known"⟩ 12) 3).statusCode = none ∧
    (checkSite (.failure ⟨some "ENOTFOUND", "name not known"⟩ 12) 3).responseTime = some 12 ∧
    ∃ k, (checkSite (.failure ⟨some "ENOTFOUND", "name not known"⟩ 12) 3).errorType = some k ∧
      k ∈ (["Timeout", "DNS Error", "Connection Error", "SSL Warning",
            "Network Error", "Unknown"] : List String) :=
  probe_no_response_shape ⟨some "ENOTFOUND", "name not known"⟩ 12 3

/-- Claim C7: for every completed monitoring cycle, the report summary
satisfies `up + down = total` (server.js lines 310-334: both counts are
filters of the same result list, every result status is UP or DOWN). -/
theorem cycle_up_down_total (m : MonState)
    (tasks : List (Site × TaskOutcome × Nat)) (endTime : Nat) :
    (performAutomaticMonitoring m tasks endTime).2.1.up +
      (performAutomaticMonitoring m tasks endTime).2.1.down =
      (performAutomaticMonitoring m tasks endTime).2.1.total :=
  countStatus_up_down _

/-- Claim C9: the manual check-all path (`GET /api/check`) runs probes
and returns raw results without persisting state: the tracker map is
unchanged (entry by entry), no change event is produced, and the output
is exactly the handler's fresh-results payload. -/
theorem manual_check_frame (m : MonState)
    (tasks : List (Site × TaskOutcome × Nat)) (now : Nat) :
    (serverStep m (.manualCheck tasks now)).1 = m ∧
    outputChangeEvents (serverStep m (.manualCheck tasks now)).2 = [] ∧
    (serverStep m (.manualCheck tasks now)).2 = .apiResponse (apiCheck tasks now) ∧
    (∀ n, lookupState (serverStep m (.manualCheck tasks now)).1 n = lookupState m n) :=
  ⟨rfl, rfl, rfl, fun _ => rfl⟩

/-- Claim C10: `updateMonitoringState` on a name absent from the state
map is a silent no-op: no change event, no alert, the map unchanged
(server.js line 91: `if (!currentState) return`). -/
theorem update_unknown_name_noop (m : MonState) (name : String)
    (r : CheckResult) (now : Nat) (h : lookupState m name = none) :
    updateMonitoringState m name r now = (m, none, none) := by
  unfold updateMonitoringState
  rw [h]

/-- Witness for C10: updating a name on the empty map. -/
theorem update_unknown_name_noop_witness :
    lookupState [] "ghost" = none ∧
    updateMonitoringState [] "ghost" (checkSite (.response 200 5) 6) 7 =
      ([], none, none) :=
  ⟨rfl, update_unknown_name_noop [] "ghost" (checkSite (.response 200 5) 6) 7 rfl⟩

/-- Claim C5: `initializeMonitoringState` is idempotent — a second call
with the same target list changes nothing; existing entries are never
reset; each newly seen target is seeded with `lastStatus = null`
(unknown) and `changeCount = 0` (server.js lines 56-73). -/
theorem initialize_idempotent (sites : List Site) (m : MonState) :
    initializeMonitoringState sites (initializeMonitoringState sites m) =
      initializeMonitoringState sites m ∧
    (∀ n st, lookupState m n = some st →
      lookupState (initializeMonitoringState sites m) n = some st) ∧
    (∀ s, s ∈ sites → lookupState m s.name = none →
      ∃ st, lookupState (initializeMonitoringState sites m) s.name = some st ∧
        st.lastStatus = none ∧ st.changeCount = 0) := by
  refine ⟨?_, ?_, ?_⟩
  · exact init_noop sites _ (fun s hs => init_covers sites m s hs)
  · exact fun n st h => init_preserves sites m n st h
  · intro s hs h0
    rcases init_cases sites m s.name with h1 | h1
    · exfalso
      have hcov := init_covers sites m s hs
      rw [h1, h0] at hcov
      simp at hcov
    · exact h1

/-- A concrete target used by witnesses and counterexamples. -/
def demoSite : Site := { name := "alpha", url := "http://alpha.example" }

/-- Witness for C5: a single fresh target on the empty map. -/
theorem initialize_idempotent_witness :
    lookupState [] demoSite.name = none ∧ demoSite ∈ [demoSite] ∧
    ∃ st, lookupState (initializeMonitoringState [demoSite] []) demoSite.name =
      some st ∧ st.lastStatus = none ∧ st.changeCount = 0 :=
  ⟨rfl, by simp, (initialize_idempotent [demoSite] []).2.2 demoSite (by simp) rfl⟩

/-- The map after startup initialization for the demo target. -/
def demoState : MonState := initializeMonitoringState [demoSite] []

/-- A one-target cycle whose task rejects. -/
def rejectedTasks : List (Site × TaskOutcome × Nat) :=
  [(demoSite, .rejected "socket hang up", 5)]

/-- Counterexample for C4 as stated: in a cycle whose single target's
task rejects, the recorded result is DOWN and the cycle still completes
(`total = 1`), but the result carries no `errorType` at all — the
`.catch` handler of server.js lines 296-305 sets no such field — so the
failure is not converted into a result with `errorKind = Unknown`. -/
theorem cycle_rejection_no_errorKind :
    (performAutomaticMonitoring demoState rejectedTasks 9).2.1.total = 1 ∧
    (performAutomaticMonitoring demoState rejectedTasks 9).2.1.results.map
      SiteResult.status = [Status.DOWN] ∧
    (performAutomaticMonitoring demoState rejectedTasks 9).2.1.results.map
      SiteResult.errorType = [none] ∧
    (performAutomaticMonitoring demoState rejectedTasks 9).2.1.results.map
      SiteResult.errorType ≠ [some "Unknown"] :=
  ⟨rfl, rfl, rfl, by decide⟩

/-- Claim C4 (amended): a failure in any individual target's probe is
caught and converted into a DOWN result — an exception thrown inside the
probe is classified by the probe's own handler (one of the six taxonomy
strings, `'Unknown'` when unclassified), while a rejected task is caught
at the cycle level with the error message recorded and no `errorType`
field — it never aborts the cycle, and the report's total always equals
the number of targets dispatched. -/
theorem cycle_isolation_amended (m : MonState)
    (tasks : List (Site × TaskOutcome × Nat)) (endTime : Nat) :
    (performAutomaticMonitoring m tasks endTime).2.1.total = tasks.length ∧
    (∀ s msg time, runTarget s (.rejected msg) time =
      { name := s.name, url := s.url, status := .DOWN, statusCode := none,
        responseTime := none, checkedAt := time, error := some msg,
        errorType := none }) ∧
    (∀ s e el time, (runTarget s (.ran (.failure e el)) time).status = .DOWN ∧
      ∃ k, (runTarget s (.ran (.failure e el)) time).errorType = some k ∧
        k ∈ (["Timeout", "DNS Error", "Connection Error", "SSL Warning",
              "Network Error", "Unknown"] : List String)) := by
  refine ⟨?_, fun s msg time => rfl, fun s e el time => ?_⟩
  · show (runCycle m tasks).2.1.length = tasks.length
    rw [runCycle_results, List.length_map]
  · have h := checkSite_failure_fields e el time
    exact ⟨h.1, h.2.2.2⟩

/-- Counterexample for C8 as stated: for the same probe outcomes (one
target whose task rejects), the scheduled path produces a complete
report with one result, while the manual `/api/check` handler — a
separate code path without the per-target catch — returns a 500 error
response with no results and no summary.  The two triggers do not invoke
the same cycle logic. -/
theorem manual_scheduled_divergence :
    (performAutomaticMonitoring demoState rejectedTasks 9).2.1.total = 1 ∧
    (performAutomaticMonitoring demoState rejectedTasks 9).2.1.results.length = 1 ∧
    apiCheck rejectedTasks 9 =
      .serverError "Error checking sites" "socket hang up" ∧
    (apiCheck rejectedTasks 9).isOk = false :=
  ⟨rfl, rfl, rfl, rfl⟩

/-- Claim C8 (amended): the scheduled cycle and the manual `/api/check`
path are separate, near-duplicate code paths built on the same per-site
probe `checkSite`; whenever the target list is nonempty and no task
rejects, the manual response carries exactly the scheduled cycle's
per-site results and up/down/total summary (for any tracker state); the
paths diverge when a task rejects, and the manual path does not feed the
state tracker. -/
theorem manual_scheduled_agree_amended (m : MonState)
    (tasks : List (Site × TaskOutcome × Nat)) (t : Nat)
    (hne : tasks ≠ []) (hran : allRan tasks = true) :
    apiCheck tasks t =
      .ok t (performAutomaticMonitoring m tasks t).2.1.total
        (performAutomaticMonitoring m tasks t).2.1.up
        (performAutomaticMonitoring m tasks t).2.1.down
        (performAutomaticMonitoring m tasks t).2.1.results := by
  have hres : (performAutomaticMonitoring m tasks t).2.1.results =
      tasks.map (fun x => runTarget x.1 x.2.1 x.2.2) := runCycle_results m tasks
  have htot : (performAutomaticMonitoring m tasks t).2.1.total =
      (tasks.map (fun x => runTarget x.1 x.2.1 x.2.2)).length := by
    show (runCycle m tasks).2.1.length = _
    rw [runCycle_results]
  have hup : (performAutomaticMonitoring m tasks t).2.1.up =
      countStatus .UP (tasks.map (fun x => runTarget x.1 x.2.1 x.2.2)) := by
    show countStatus .UP (runCycle m tasks).2.1 = _
    rw [runCycle_results]
  have hdown : (performAutomaticMonitoring m tasks t).2.1.down =
      countStatus .DOWN (tasks.map (fun x => runTarget x.1 x.2.1 x.2.2)) := by
    show countStatus .DOWN (runCycle m tasks).2.1 = _
    rw [runCycle_results]
  rw [hres, htot, hup, hdown]
  unfold apiCheck
  rw [if_neg (by simpa [List.isEmpty_iff] using hne)]
  rw [collectResults_ok tasks hran]

/-- A one-target cycle whose probe succeeds with code 200. -/
def okTasks : List (Site × TaskOutcome × Nat) :=
  [(demoSite, .ran (.response 200 3), 4)]

/-- Witness for the amended C8 on a concrete successful cycle. -/
theorem manual_scheduled_agree_amended_witness :
    okTasks ≠ [] ∧ allRan okTasks = true ∧
    apiCheck okTasks 4 =
      .ok 4 (performAutomaticMonitoring demoState okTasks 4).2.1.total
        (performAutomaticMonitoring demoState okTasks 4).2.1.up
        (performAutomaticMonitoring demoState okTasks 4).2.1.down
        (performAutomaticMonitoring demoState okTasks 4).2.1.results :=
  ⟨by decide, by decide,
   manual_scheduled_agree_amended demoState okTasks 4 (by decide) (by decide)⟩

/-- Claim C2: `changeCount` increments exactly once per update whose new
status differs from the immediately preceding non-null status (the first
observation never counts, server.js line 103); over the probe-status
sequence UP, UP, DOWN, DOWN, UP starting from an unknown site it ends at
exactly 2. -/
theorem changeCount_transition_sequence :
    (∀ m name r now cur, lookupState m name = some cur →
      ∃ st, lookupState (updateMonitoringState m name r now).1 name = some st ∧
        st.changeCount = cur.changeCount +
          (if cur.lastStatus ≠ none ∧ cur.lastStatus ≠ some r.status then 1
           else 0)) ∧
    (∀ name url r1 r2 r3 r4 r5 t1 t2 t3 t4 t5,
      r1.status = .UP → r2.status = .UP → r3.status = .DOWN →
      r4.status = .DOWN → r5.status = .UP →
      ∃ st, lookupState
          (applyResults [(name, freshState name url)] name
            [(r1, t1), (r2, t2), (r3, t3), (r4, t4), (r5, t5)]) name =
          some st ∧ st.changeCount = 2) := by
  constructor
  · intro m name r now cur hcur
    have hsome : (lookupState m name).isSome := by simp [hcur]
    unfold updateMonitoringState
    rw [hcur]
    cases hs : cur.lastStatus with
    | none =>
      simp only [hs]
      refine ⟨_, lookup_setState_self m name _ hsome, ?_⟩
      simp [hs]
    | some p =>
      by_cases hp : p = r.status
      · simp only [hs, if_pos hp]
        refine ⟨_, lookup_setState_self m name _ hsome, ?_⟩
        simp [hs, hp]
      · simp only [hs, if_neg hp]
        refine ⟨_, lookup_setState_self m name _ hsome, ?_⟩
        simp [hs, hp]
  · intro name url r1 r2 r3 r4 r5 t1 t2 t3 t4 t5 h1 h2 h3 h4 h5
    obtain ⟨s1, c1, rt1, ca1, e1, et1⟩ := r1
    obtain ⟨s2, c2, rt2, ca2, e2, et2⟩ := r2
    obtain ⟨s3, c3, rt3, ca3, e3, et3⟩ := r3
    obtain ⟨s4, c4, rt4, ca4, e4, et4⟩ := r4
    obtain ⟨s5, c5, rt5, ca5, e5, et5⟩ := r5
    simp only at h1 h2 h3 h4 h5
    subst h1 h2 h3 h4 h5
    simp [applyResults, updateMonitoringState, lookupState, setState,
          freshState]

/-- An UP probe result (HTTP 200) observed at time `t`. -/
def upResult (t : Nat) : CheckResult := checkSite (.response 200 3) t

/-- A DOWN probe result (HTTP 503) observed at time `t`. -/
def downResult (t : Nat) : CheckResult := checkSite (.response 503 3) t

/-- Witness for C2: the concrete five-step sequence on a fresh site. -/
theorem changeCount_transition_sequence_witness :
    (upResult 1).status = .UP ∧ (downResult 3).status = .DOWN ∧
    ∃ st, lookupState
        (applyResults [("alpha", freshState "alpha" "http://alpha.example")]
          "alpha"
          [(upResult 1, 1), (upResult 2, 2), (downResult 3, 3),
           (downResult 4, 4), (upResult 5, 5)]) "alpha" = some st ∧
      st.changeCount = 2 :=
  ⟨by decide, by decide,
   changeCount_transition_sequence.2 "alpha" "http://alpha.example"
     (upResult 1) (upResult 2) (downResult 3) (downResult 4) (upResult 5)
     1 2 3 4 5 (by decide) (by decide) (by decide) (by decide) (by decide)⟩

/-- Claim C3: `updateMonitoringState` returns a change object iff the
previous status is non-null and differs from the new one; exactly in
that case `changeCount` is incremented and `lastChangedAt` is set to the
update time (otherwise both are untouched); probing a fresh site twice
with UP then DOWN emits exactly one change event and leaves
`changeCount = 1` and `lastChangedAt` at the second probe's time. -/
theorem update_change_event_iff :
    (∀ m name r now cur, lookupState m name = some cur →
      (((updateMonitoringState m name r now).2.1).isSome ↔
        ∃ p, cur.lastStatus = some p ∧ p ≠ r.status) ∧
      (∀ p, cur.lastStatus = some p → p ≠ r.status →
        (updateMonitoringState m name r now).2.1 =
          some { siteChanged := true, siteName := name, previousStatus := p,
                 newStatus := r.status, changedAt := now,
                 changeCount := cur.changeCount + 1 } ∧
        ∃ st, lookupState (updateMonitoringState m name r now).1 name =
            some st ∧
          st.changeCount = cur.changeCount + 1 ∧
          st.lastChangedAt = some now) ∧
      ((updateMonitoringState m name r now).2.1 = none →
        ∃ st, lookupState (updateMonitoringState m name r now).1 name =
            some st ∧
          st.changeCount = cur.changeCount ∧
          st.lastChangedAt = cur.lastChangedAt)) ∧
    (∀ name url r1 r2 t1 t2, r1.status = .UP → r2.status = .DOWN →
      (updateMonitoringState [(name, freshState name url)] name r1 t1).2.1 =
        none ∧
      (updateMonitoringState
          (updateMonitoringState [(name, freshState name url)] name r1 t1).1
          name r2 t2).2.1 =
        some { siteChanged := true, siteName := name, previousStatus := .UP,
               newStatus := .DOWN, changedAt := t2, changeCount := 1 } ∧
      ∃ st, lookupState (updateMonitoringState
          (updateMonitoringState [(name, freshState name url)] name r1 t1).1
          name r2 t2).1 name = some st ∧
        st.changeCount = 1 ∧ st.lastChangedAt = some t2) := by
  constructor
  · intro m name r now cur hcur
    have hsome : (lookupState m name).isSome := by simp [hcur]
    unfold updateMonitoringState
    rw [hcur]
    cases hs : cur.lastStatus with
    | none =>
      simp only [hs]
      refine ⟨?_, ?_, ?_⟩
      · simp
      · intro q hq hne
        exact Option.noConfusion hq
      · intro _
        refine ⟨_, lookup_setState_self m name _ hsome, ?_, ?_⟩ <;> simp
    | some p =>
      by_cases hp : p = r.status
      · simp only [hs, if_pos hp]
        refine ⟨?_, ?_, ?_⟩
        · simp [hs, hp]
        · intro q hq hne
          obtain rfl : p = q := Option.some.inj hq
          exact absurd hp hne
        · intro _
          refine ⟨_, lookup_setState_self m name _ hsome, ?_, ?_⟩ <;>
            simp [hs, hp]
      · simp only [hs, if_neg hp]
        refine ⟨?_, ?_, ?_⟩
        · simp [hs, hp]
        · intro q hq hne
          obtain rfl : p = q := Option.some.inj hq
          refine ⟨rfl, ?_⟩
          refine ⟨_, lookup_setState_self m name _ hsome, ?_, ?_⟩ <;> simp
        · intro hnone
          exact absurd hnone (by simp)
  · intro name url r1 r2 t1 t2 h1 h2
    obtain ⟨s1, c1, rt1, ca1, e1, et1⟩ := r1
    obtain ⟨s2, c2, rt2, ca2, e2, et2⟩ := r2
    simp only at h1 h2
    subst h1 h2
    simp [updateMonitoringState, lookupState, setState, freshState]

/-- Witness for C3: a fresh site probed twice, UP at time 1 then DOWN at
time 2 — one event, `changeCount = 1`, `lastChangedAt` at the second
probe's time. -/
theorem update_change_event_iff_witness :
    (upResult 1).status = .UP ∧ (downResult 2).status = .DOWN ∧
    ((updateMonitoringState
        [("alpha", freshState "alpha" "http://alpha.example")] "alpha"
        (upResult 1) 1).2.1 = none ∧
      (updateMonitoringState
          (updateMonitoringState
            [("alpha", freshState "alpha" "http://alpha.example")] "alpha"
            (upResult 1) 1).1 "alpha" (downResult 2) 2).2.1 =
        some { siteChanged := true, siteName := "alpha",
               previousStatus := .UP, newStatus := .DOWN, changedAt := 2,
               changeCount := 1 } ∧
      ∃ st, lookupState (updateMonitoringState
          (updateMonitoringState
            [("alpha", freshState "alpha" "http://alpha.example")] "alpha"
            (upResult 1) 1).1 "alpha" (downResult 2) 2).1 "alpha" =
          some st ∧ st.changeCount = 1 ∧ st.lastChangedAt = some 2) :=
  ⟨by decide, by decide,
   update_change_event_iff.2 "alpha" "http://alpha.example" (upResult 1)
     (downResult 2) 1 2 (by decide) (by decide)⟩
